import Mathlib

/-!
Shallow embedding of the statistics aggregation and trend-detection logic of
the nba-analytics repository.

The shot-zone logic is embedded from `frontend/src/Compare.jsx` (the ShotChart
half of that file: `LEAGUE_AVG`, `getDiff`, `getColor`, `ZoneTable`, and the
"key insight" strongest/weakest-zone selection), the season-average and trend
logic from `frontend/src/Overview.jsx` and the main `App` component
(`seasonAvg`, `atr`, `TrendBadge`, `StatCard`, `ShotZoneMap`), and the
rolling-average engine — whose backend implementation (`api/main.py`) is not
part of the available sources — is modelled from the specification.

JavaScript numbers are modelled as rationals (ℚ); the arithmetic performed by
the embedded code (sums, differences, divisions, comparisons) is exact on the
inputs at stake.  A JavaScript value that may be `null`/`undefined` is
modelled as `Option ℚ`, and JavaScript truthiness of such a value (`!pct`)
is `truthy`: `none` and `some 0` are both falsy.
-/

/-- JavaScript truthiness of a nullable number: `null`/`undefined` and `0`
are falsy, every other number is truthy. -/
def truthy : Option ℚ → Bool
  | none => false
  | some q => q != 0

/-- The numeric value of `x.toFixed(1)`: rounding to one decimal,
half away from zero for the nonnegative values that occur here. -/
def round1 (q : ℚ) : ℚ := (⌊q * 10 + 1/2⌋ : ℚ) / 10

/-! ## Shot-zone model (Compare.jsx, ShotChart section) -/

/-- One row of the `/players/{id}/shot-chart` response as consumed by the
frontend: zone name, shooting percentage (null when there are no attempts),
attempt and make counts. -/
structure ZoneStat where
  shot_zone_basic : String
  pct : Option ℚ
  attempts : ℕ
  makes : ℕ
deriving DecidableEq, Repr

/-- The `LEAGUE_AVG` table of Compare.jsx: league average FG% by zone. -/
def LEAGUE_AVG : String → Option ℚ
  | "Restricted Area" => some 64.5
  | "In The Paint (Non-RA)" => some 40.2
  | "Mid-Range" => some 42.1
  | "Left Corner 3" => some 38.8
  | "Right Corner 3" => some 39.1
  | "Above the Break 3" => some 36.2
  | "Backcourt" => some 2.0
  | _ => none

/-- The `getDiff` helper of Compare.jsx: returns `pct - LEAGUE_AVG[zone]`,
or `0` when the league average is absent/falsy or `pct` is falsy. -/
def getDiff (pct : Option ℚ) (zone : String) : ℚ :=
  let avg := LEAGUE_AVG zone
  if !truthy avg || !truthy pct then 0
  else pct.getD 0 - avg.getD 0

/-- The fill/stroke/text colour triple returned by `getColor`. -/
structure ZoneColor where
  fill : String
  stroke : String
  text : String
deriving DecidableEq, Repr

/-- The `getColor` helper of Compare.jsx: the no-data colours for a falsy
`pct`, otherwise one of five tier colours keyed on `getDiff`. -/
def getColor (pct : Option ℚ) (zone : String) : ZoneColor :=
  if !truthy pct then ⟨"#1e2433", "#2a3347", "#6b7280"⟩
  else
    let diff := getDiff pct zone
    if diff ≥ 8 then ⟨"#14532d", "#4ade80", "#4ade80"⟩
    else if diff ≥ 3 then ⟨"#1a3a1a", "#86efac", "#86efac"⟩
    else if diff ≥ -3 then ⟨"#1e2433", "#e8ff47", "#e8ff47"⟩
    else if diff ≥ -8 then ⟨"#3a1a1a", "#fb923c", "#fb923c"⟩
    else ⟨"#2a0f0f", "#f87171", "#f87171"⟩

/-- The per-row `Diff` column of `ZoneTable` in Compare.jsx:
`z.pct && avg ? parseFloat(z.pct) - avg : null`. -/
def zoneTableDiff (z : ZoneStat) : Option ℚ :=
  let avg := LEAGUE_AVG z.shot_zone_basic
  if truthy z.pct && truthy avg then some (z.pct.getD 0 - avg.getD 0)
  else none

/-- The diff as worded by the specification: `pct - LeagueZoneBaseline[zone]`
when both the percentage and the baseline are available (non-null), null
otherwise.  Stated from the spec for comparison with the code's `getDiff`
and `zoneTableDiff`. -/
def specZoneDiff (z : ZoneStat) : Option ℚ :=
  match z.pct, LEAGUE_AVG z.shot_zone_basic with
  | some p, some b => some (p - b)
  | _, _ => none

/-- Insertion of an element into a list, keeping elements of smaller key
first; the building block for the JavaScript comparator sorts below. -/
def insertByKey (key : ZoneStat → ℚ) (x : ZoneStat) : List ZoneStat → List ZoneStat
  | [] => [x]
  | y :: ys => if key x ≤ key y then x :: y :: ys else y :: insertByKey key x ys

/-- Sort ascending by a rational key, as `Array.prototype.sort` with the
numeric comparator `(a, b) => key(a) - key(b)`. -/
def sortByKey (key : ZoneStat → ℚ) (l : List ZoneStat) : List ZoneStat :=
  l.foldr (insertByKey key) []

/-- The sort key used by the ShotChart key-insight block:
`getDiff(z.pct, z.shot_zone_basic)`. -/
def diffKey (z : ZoneStat) : ℚ := getDiff z.pct z.shot_zone_basic

/-- The "Strongest Zone" selection of Compare.jsx:
`[...zones].filter(z => z.pct).sort((a, b) => getDiff(b...) - getDiff(a...))[0]`,
i.e. the head of the truthy-pct zones sorted by descending `getDiff`. -/
def selectBest (zones : List ZoneStat) : Option ZoneStat :=
  (sortByKey (fun z => -diffKey z) (zones.filter (fun z => truthy z.pct))).head?

/-- The "Weakest Zone" selection of Compare.jsx:
`[...zones].filter(z => z.pct && z.attempts > 10).sort((a, b) => getDiff(a...) - getDiff(b...))[0]`. -/
def selectWorst (zones : List ZoneStat) : Option ZoneStat :=
  (sortByKey diffKey
    (zones.filter (fun z => truthy z.pct && decide (z.attempts > 10)))).head?

/-- The zone percentage as displayed by the zone widgets
(`z.pct ? z.pct + '%' : '—'`): `some p` when "p%" is shown, `none` for the
em-dash placeholder. -/
def zonePctShown (pct : Option ℚ) : Option ℚ :=
  if truthy pct then pct else none

/-- The `getColor` helper of `ShotZoneMap` in Overview.jsx: absolute FG%
buckets, with the border colour for a falsy `pct`. -/
def overviewZoneColor (pct : Option ℚ) : String :=
  if !truthy pct then "var(--border)"
  else
    let p := pct.getD 0
    if p ≥ 55 then "#4ade80"
    else if p ≥ 45 then "#e8ff47"
    else if p ≥ 35 then "#fb923c"
    else "#f87171"

/-! ## Game-log model (Overview.jsx, App, Compare.jsx loadStats) -/

/-- One row of the `/players/{id}/game-logs` response, restricted to the
numeric stat fields the embedded computations read.  Every field is nullable
in the database schema (`FLOAT` columns with no NOT NULL constraint). -/
structure GameLog where
  pts : Option ℚ
  reb : Option ℚ
  ast : Option ℚ
  tov : Option ℚ
  plus_minus : Option ℚ
  fg_pct : Option ℚ
  fg3_pct : Option ℚ
  ft_pct : Option ℚ
deriving DecidableEq, Repr

/-- The reduction pattern `logs.reduce((s, g) => s + (f(g) || 0), 0)` shared by
every frontend averaging site: a missing (or zero) field contributes 0. -/
def sumOrZero (f : GameLog → Option ℚ) (logs : List GameLog) : ℚ :=
  (logs.map (fun g => (f g).getD 0)).sum

/-- The four season averages computed by the main `App` component
(`seasonAvg`), each `toFixed(1)` of the sum-with-null-as-zero divided by the
number of games. -/
structure SeasonAvgApp where
  pts : ℚ
  reb : ℚ
  ast : ℚ
  pm : ℚ
deriving DecidableEq, Repr

/-- The `seasonAvg` object of the main `App` component:
`gameLogs.length ? {...} : null`. -/
def seasonAvgApp (logs : List GameLog) : Option SeasonAvgApp :=
  if logs.isEmpty then none
  else some
    { pts := round1 (sumOrZero GameLog.pts logs / logs.length)
      reb := round1 (sumOrZero GameLog.reb logs / logs.length)
      ast := round1 (sumOrZero GameLog.ast logs / logs.length)
      pm := round1 (sumOrZero GameLog.plus_minus logs / logs.length) }

/-- The assist-to-turnover display of Overview.jsx:
`topg > 0 ? (apg / topg).toFixed(1) : '—'` (`none` is the em-dash). -/
def atrOf (apg topg : ℚ) : Option ℚ :=
  if 0 < topg then some (round1 (apg / topg)) else none

/-- The per-game stats computed at the top of the `Overview` component
(raw means, before display formatting), plus the guarded
assist-to-turnover ratio. -/
structure OverviewStats where
  ppg : ℚ
  rpg : ℚ
  apg : ℚ
  topg : ℚ
  fgp : ℚ
  fg3p : ℚ
  ftp : ℚ
  pm : ℚ
  atr : Option ℚ
deriving DecidableEq, Repr

/-- The `Overview` component's season block: the component returns null
before any division when `gameLogs` is empty
(`if (!gameLogs?.length) return null`). -/
def overviewStats (logs : List GameLog) : Option OverviewStats :=
  if logs.isEmpty then none
  else
    let gp : ℚ := logs.length
    let apg := sumOrZero GameLog.ast logs / gp
    let topg := sumOrZero GameLog.tov logs / gp
    some
      { ppg := sumOrZero GameLog.pts logs / gp
        rpg := sumOrZero GameLog.reb logs / gp
        apg := apg
        topg := topg
        fgp := sumOrZero GameLog.fg_pct logs / gp
        fg3p := sumOrZero GameLog.fg3_pct logs / gp
        ftp := sumOrZero GameLog.ft_pct logs / gp
        pm := sumOrZero GameLog.plus_minus logs / gp
        atr := atrOf apg topg }

/-- The head-to-head stat object built by `loadStats` in Compare.jsx; the
early return `if (!logs.length) return` leaves the state null, so the
whole object is `Option`al. -/
structure CompareStats where
  ppg : ℚ
  rpg : ℚ
  apg : ℚ
  topg : ℚ
  fg : ℚ
  fg3 : ℚ
  ft : ℚ
  pm : ℚ
  gp : ℕ
deriving DecidableEq, Repr

/-- The `loadStats` computation of Compare.jsx. -/
def loadStatsCompare (logs : List GameLog) : Option CompareStats :=
  if logs.isEmpty then none
  else
    let n : ℚ := logs.length
    some
      { ppg := round1 (sumOrZero GameLog.pts logs / n)
        rpg := round1 (sumOrZero GameLog.reb logs / n)
        apg := round1 (sumOrZero GameLog.ast logs / n)
        topg := round1 (sumOrZero GameLog.tov logs / n)
        fg := round1 (sumOrZero GameLog.fg_pct logs / n * 100)
        fg3 := round1 (sumOrZero GameLog.fg3_pct logs / n * 100)
        ft := round1 (sumOrZero GameLog.ft_pct logs / n * 100)
        pm := round1 (sumOrZero GameLog.plus_minus logs / n)
        gp := logs.length }

/-- The season average of one stat as worded by the specification: a game
whose field is missing is excluded from both numerator and denominator, and
the average is null when every value is missing.  Stated from the spec for
comparison with the code's sum-with-null-as-zero averages. -/
def specMean (vals : List (Option ℚ)) : Option ℚ :=
  let vs := vals.reduceOption
  if vs.isEmpty then none else some (vs.sum / vs.length)

/-! ## Trend rendering (TrendBadge / StatCard in the App component) -/

/-- The arrow rendered by `TrendBadge`: `null` delta renders nothing, else
the badge is up (favourable, green) iff `delta > 0`. -/
def trendBadgeUp (delta : Option ℚ) : Option Bool :=
  match delta with
  | none => none
  | some d => some (decide (0 < d))

/-- The arrow rendered by `StatCard`: shown only when the delta is neither
undefined nor null (`hasD`), up iff `delta > 0` (`positive`). -/
def statCardArrowUp (delta : Option ℚ) : Option Bool :=
  match delta with
  | none => none
  | some d => some (decide (0 < d))

/-! ## Rolling-average engine (modelled from the spec) -/

/-- Modelled from the spec: the error taxonomy of §7 as far as the
rolling-average engine raises it; the backend implementation (`api/main.py`)
is not among the available sources. -/
inductive RollErr where
  | InvalidWindow
deriving DecidableEq, Repr

/-- Modelled from the spec: a per-game record as consumed by the
rolling-average engine, with a chronological date key and optional
(possibly missing) stat values. -/
structure SpecGame where
  game_date : ℕ
  pts : Option ℚ
  reb : Option ℚ
  ast : Option ℚ
  plus_minus : Option ℚ
deriving DecidableEq, Repr

/-- Modelled from the spec: a RollingPoint, one per game index `i ≥ W-1`,
each statistic the arithmetic mean of the field over the window, null when
every value in the window is missing. -/
structure RollingPoint where
  game_date : ℕ
  pts_avg : Option ℚ
  reb_avg : Option ℚ
  ast_avg : Option ℚ
  plus_minus_avg : Option ℚ
deriving DecidableEq, Repr

/-- Modelled from the spec: the window of `w` games ending at index
`k + w - 1` of the chronologically ascending sequence. -/
def windowAt (games : List SpecGame) (k w : ℕ) : List SpecGame :=
  (games.drop k).take w

/-- Modelled from the spec: `get_rolling_averages` /
`RollingAverageCalculator`, whose backend implementation is not among the
available sources.  Fails with `InvalidWindow` for `W ≤ 0`, returns an empty
sequence when fewer than `W` games are supplied, and otherwise produces one
RollingPoint per full window, each statistic the `specMean` of the field over
that window. -/
def get_rolling_averages (w : ℤ) (games : List SpecGame) :
    Except RollErr (List RollingPoint) :=
  if w ≤ 0 then .error .InvalidWindow
  else
    let wn := w.toNat
    if games.length < wn then .ok []
    else .ok <| (List.range (games.length - wn + 1)).map fun k =>
      let win := windowAt games k wn
      { game_date := ((win.getLast?).map SpecGame.game_date).getD 0
        pts_avg := specMean (win.map SpecGame.pts)
        reb_avg := specMean (win.map SpecGame.reb)
        ast_avg := specMean (win.map SpecGame.ast)
        plus_minus_avg := specMean (win.map SpecGame.plus_minus) }

/-! ## Lemmas about the comparator sort -/

theorem mem_insertByKey {key : ZoneStat → ℚ} {x a : ZoneStat} {l : List ZoneStat} :
    a ∈ insertByKey key x l ↔ a = x ∨ a ∈ l := by
  induction l with
  | nil => simp [insertByKey]
  | cons y ys ih =>
    simp only [insertByKey]
    split
    · simp [List.mem_cons]
    · simp only [List.mem_cons, ih]
      tauto

theorem sorted_insertByKey {key : ZoneStat → ℚ} (x : ZoneStat) {l : List ZoneStat}
    (h : l.Sorted (fun a b => key a ≤ key b)) :
    (insertByKey key x l).Sorted (fun a b => key a ≤ key b) := by
  induction l with
  | nil => simp [insertByKey]
  | cons y ys ih =>
    rw [List.sorted_cons] at h
    simp only [insertByKey]
    split
    · next hxy =>
      rw [List.sorted_cons]
      refine ⟨?_, List.sorted_cons.mpr h⟩
      intro b hb
      rcases List.mem_cons.mp hb with rfl | hb
      · exact hxy
      · exact le_trans hxy (h.1 b hb)
    · next hxy =>
      rw [List.sorted_cons]
      refine ⟨?_, ih h.2⟩
      intro b hb
      rcases mem_insertByKey.mp hb with rfl | hb
      · exact le_of_lt (lt_of_not_le hxy)
      · exact h.1 b hb

theorem sorted_sortByKey (key : ZoneStat → ℚ) (l : List ZoneStat) :
    (sortByKey key l).Sorted (fun a b => key a ≤ key b) := by
  induction l with
  | nil => simp [sortByKey]
  | cons y ys ih => exact sorted_insertByKey y ih

theorem mem_sortByKey {key : ZoneStat → ℚ} {a : ZoneStat} {l : List ZoneStat} :
    a ∈ sortByKey key l ↔ a ∈ l := by
  induction l with
  | nil => simp [sortByKey]
  | cons y ys ih =>
    show a ∈ insertByKey key y (sortByKey key ys) ↔ _
    rw [mem_insertByKey, ih]
    simp [List.mem_cons]

theorem head_sortByKey_min {key : ZoneStat → ℚ} {l : List ZoneStat} {w : ZoneStat}
    (h : (sortByKey key l).head? = some w) :
    w ∈ l ∧ ∀ z ∈ l, key w ≤ key z := by
  obtain ⟨t, ht⟩ : ∃ t, sortByKey key l = w :: t := by
    cases hs : sortByKey key l with
    | nil => rw [hs] at h; simp at h
    | cons b t =>
      rw [hs] at h
      simp only [List.head?_cons, Option.some.injEq] at h
      subst h
      exact ⟨t, hs ▸ rfl⟩
  constructor
  · exact mem_sortByKey.mp (ht ▸ List.mem_cons_self w t)
  · intro z hz
    have hzs : z ∈ sortByKey key l := mem_sortByKey.mpr hz
    rw [ht] at hzs
    rcases List.mem_cons.mp hzs with rfl | hzt
    · exact le_refl _
    · have hsorted := sorted_sortByKey key l
      rw [ht, List.sorted_cons] at hsorted
      exact hsorted.1 z hzt

theorem head_sortByKey_isSome {key : ZoneStat → ℚ} {l : List ZoneStat} {z : ZoneStat}
    (hz : z ∈ l) : ((sortByKey key l).head?).isSome = true := by
  have : z ∈ sortByKey key l := mem_sortByKey.mpr hz
  cases hs : sortByKey key l with
  | nil => rw [hs] at this; simp at this
  | cons b t => simp [hs]

/-! ## Claim theorems -/

/-- Example input of §8 of the spec: four games on dates 1..4 with point
totals 20, 30, 10, 40. -/
def exampleGames : List SpecGame :=
  [⟨1, some 20, none, none, none⟩, ⟨2, some 30, none, none, none⟩,
   ⟨3, some 10, none, none, none⟩, ⟨4, some 40, none, none, none⟩]

/-- C1: for every chronologically ordered sequence of N games and every
window size W with 1 ≤ W ≤ N, the rolling-average computation produces
exactly N − W + 1 RollingPoints, and the point at index k (game index
i = k + W − 1) carries, for each statistic, the arithmetic mean of that
field over the W-game slice [i−W+1, i]. -/
theorem rolling_averages_count_and_means (games : List SpecGame) (w : ℤ)
    (h1 : 1 ≤ w) (h2 : w.toNat ≤ games.length) :
    ∃ pts, get_rolling_averages w games = .ok pts ∧
      pts.length = games.length - w.toNat + 1 ∧
      ∀ k, ∀ hk : k < pts.length,
        pts.get ⟨k, hk⟩ =
          { game_date := (((windowAt games k w.toNat).getLast?).map SpecGame.game_date).getD 0
            pts_avg := specMean ((windowAt games k w.toNat).map SpecGame.pts)
            reb_avg := specMean ((windowAt games k w.toNat).map SpecGame.reb)
            ast_avg := specMean ((windowAt games k w.toNat).map SpecGame.ast)
            plus_minus_avg := specMean ((windowAt games k w.toNat).map SpecGame.plus_minus) } := by
  have hw : ¬ w ≤ 0 := by omega
  have hlen : ¬ games.length < w.toNat := by omega
  have hok : get_rolling_averages w games =
      .ok ((List.range (games.length - w.toNat + 1)).map fun k =>
        { game_date := (((windowAt games k w.toNat).getLast?).map SpecGame.game_date).getD 0
          pts_avg := specMean ((windowAt games k w.toNat).map SpecGame.pts)
          reb_avg := specMean ((windowAt games k w.toNat).map SpecGame.reb)
          ast_avg := specMean ((windowAt games k w.toNat).map SpecGame.ast)
          plus_minus_avg := specMean ((windowAt games k w.toNat).map SpecGame.plus_minus) }) := by
    unfold get_rolling_averages
    rw [if_neg hw, if_neg hlen]
  refine ⟨_, hok, ?_, ?_⟩
  · simp
  · intro k hk
    simp only [List.get_eq_getElem, List.getElem_map, List.getElem_range]

/-- C1 witness: at the spec's own example (points 20, 30, 10, 40, W = 2) the
engine succeeds, and the three points carry averages 25, 20, 25 on dates
2, 3, 4. -/
theorem rolling_averages_count_and_means_witness :
    (1 : ℤ) ≤ 2 ∧ (2 : ℤ).toNat ≤ exampleGames.length ∧
    (∃ pts, get_rolling_averages 2 exampleGames = .ok pts ∧
      pts.length = exampleGames.length - (2 : ℤ).toNat + 1 ∧
      ∀ k, ∀ hk : k < pts.length,
        pts.get ⟨k, hk⟩ =
          { game_date := (((windowAt exampleGames k (2 : ℤ).toNat).getLast?).map SpecGame.game_date).getD 0
            pts_avg := specMean ((windowAt exampleGames k (2 : ℤ).toNat).map SpecGame.pts)
            reb_avg := specMean ((windowAt exampleGames k (2 : ℤ).toNat).map SpecGame.reb)
            ast_avg := specMean ((windowAt exampleGames k (2 : ℤ).toNat).map SpecGame.ast)
            plus_minus_avg := specMean ((windowAt exampleGames k (2 : ℤ).toNat).map SpecGame.plus_minus) }) ∧
    get_rolling_averages 2 exampleGames =
      .ok [⟨2, some 25, none, none, none⟩, ⟨3, some 20, none, none, none⟩,
           ⟨4, some 25, none, none, none⟩] :=
  ⟨by decide, by decide,
   rolling_averages_count_and_means exampleGames 2 (by decide) (by decide),
   by simp [get_rolling_averages, exampleGames, windowAt, specMean, List.range_succ]
      norm_num⟩

/-- C9: for every window size W ≤ 0 the rolling-average computation fails
with InvalidWindow before any computation, while supplying fewer than W
games (W > 0) is not an error and yields the empty sequence. -/
theorem invalid_window_vs_short_input (w : ℤ) (games : List SpecGame) :
    (w ≤ 0 → get_rolling_averages w games = .error .InvalidWindow) ∧
    (0 < w → games.length < w.toNat → get_rolling_averages w games = .ok []) := by
  constructor
  · intro h
    unfold get_rolling_averages
    rw [if_pos h]
  · intro h hlen
    unfold get_rolling_averages
    rw [if_neg (by omega), if_pos hlen]

/-- C9 witness: W = 0 and W = −3 are rejected with InvalidWindow on the
example input, while W = 5 on only four games yields the empty sequence. -/
theorem invalid_window_vs_short_input_witness :
    get_rolling_averages 0 exampleGames = .error .InvalidWindow ∧
    get_rolling_averages (-3) exampleGames = .error .InvalidWindow ∧
    get_rolling_averages 5 exampleGames = .ok [] :=
  ⟨(invalid_window_vs_short_input 0 exampleGames).1 (by decide),
   (invalid_window_vs_short_input (-3) exampleGames).1 (by decide),
   (invalid_window_vs_short_input 5 exampleGames).2 (by decide) (by decide)⟩

/-- C2: for every zone whose league baseline is present (and truthy, as all
seven baselines are) and every truthy shooting percentage p, writing
diff = p − baseline, `getColor` assigns the elite colours iff diff ≥ +8,
above-average iff +3 ≤ diff < +8, average iff −3 ≤ diff < +3, below-average
iff −8 ≤ diff < −3, and cold iff diff < −8. -/
theorem zone_tier_thresholds (p b : ℚ) (zone : String)
    (hz : LEAGUE_AVG zone = some b) (hb : b ≠ 0) (hp : p ≠ 0) :
    (getColor (some p) zone = ⟨"#14532d", "#4ade80", "#4ade80"⟩ ↔ 8 ≤ p - b) ∧
    (getColor (some p) zone = ⟨"#1a3a1a", "#86efac", "#86efac"⟩ ↔ 3 ≤ p - b ∧ p - b < 8) ∧
    (getColor (some p) zone = ⟨"#1e2433", "#e8ff47", "#e8ff47"⟩ ↔ -3 ≤ p - b ∧ p - b < 3) ∧
    (getColor (some p) zone = ⟨"#3a1a1a", "#fb923c", "#fb923c"⟩ ↔ -8 ≤ p - b ∧ p - b < -3) ∧
    (getColor (some p) zone = ⟨"#2a0f0f", "#f87171", "#f87171"⟩ ↔ p - b < -8) := by
  have hd : getDiff (some p) zone = p - b := by
    simp [getDiff, hz, truthy, hp, hb]
  have hcol : getColor (some p) zone =
      (if 8 ≤ p - b then ⟨"#14532d", "#4ade80", "#4ade80"⟩
       else if 3 ≤ p - b then ⟨"#1a3a1a", "#86efac", "#86efac"⟩
       else if -3 ≤ p - b then ⟨"#1e2433", "#e8ff47", "#e8ff47"⟩
       else if -8 ≤ p - b then ⟨"#3a1a1a", "#fb923c", "#fb923c"⟩
       else ⟨"#2a0f0f", "#f87171", "#f87171"⟩ : ZoneColor) := by
    simp [getColor, truthy, hp, hd, ge_iff_le]
  rw [hcol]
  by_cases h8 : (8 : ℚ) ≤ p - b <;> by_cases h3 : (3 : ℚ) ≤ p - b <;>
    by_cases hm3 : (-3 : ℚ) ≤ p - b <;> by_cases hm8 : (-8 : ℚ) ≤ p - b <;>
    simp only [h8, h3, hm3, hm8, if_true, if_false, ZoneColor.mk.injEq] <;>
    refine ⟨?_, ?_, ?_, ?_, ?_⟩ <;> simp <;> linarith

/-- C2 witness: Restricted Area at 60.0% against the 64.5 baseline has
diff −4.5 and is assigned the below-average tier colours. -/
theorem zone_tier_thresholds_witness :
    LEAGUE_AVG "Restricted Area" = some 64.5 ∧ (64.5 : ℚ) ≠ 0 ∧ (60 : ℚ) ≠ 0 ∧
    getColor (some 60) "Restricted Area" = ⟨"#3a1a1a", "#fb923c", "#fb923c"⟩ :=
  ⟨rfl, by norm_num, by norm_num,
   ((zone_tier_thresholds 60 64.5 "Restricted Area" rfl (by norm_num) (by norm_num)).2.2.2.1).mpr
     (by norm_num)⟩

/-- C3 counterexample: for a Restricted Area zone with 0 attempts the
percentage is null, so the claim requires a null diff — but the shared
`getDiff` helper returns the number 0 there (the spec-worded `specZoneDiff`
of the same zone stat is null). -/
theorem zone_diff_null_cex :
    getDiff none "Restricted Area" = 0 ∧
    specZoneDiff ⟨"Restricted Area", none, 0, 0⟩ = none ∧
    diffKey ⟨"Restricted Area", none, 0, 0⟩ = 0 := by
  refine ⟨?_, ?_, ?_⟩ <;> simp [getDiff, specZoneDiff, diffKey, truthy]

/-- C3 amended: the ZoneTable's per-row diff equals pct − baseline when both
pct and the baseline are truthy and is null otherwise (in particular for a
null pct from a 0-attempt zone); the shared `getDiff` helper, by contrast,
returns 0 — not null — whenever pct is falsy. -/
theorem zone_diff_null_policy (z : ZoneStat) :
    (zoneTableDiff z = none ↔
      ¬(truthy z.pct = true ∧ truthy (LEAGUE_AVG z.shot_zone_basic) = true)) ∧
    (truthy z.pct = true → truthy (LEAGUE_AVG z.shot_zone_basic) = true →
      zoneTableDiff z = some (z.pct.getD 0 - (LEAGUE_AVG z.shot_zone_basic).getD 0)) ∧
    (truthy z.pct = false → getDiff z.pct z.shot_zone_basic = 0) := by
  refine ⟨?_, ?_, ?_⟩
  · cases hp : truthy z.pct <;> cases ha : truthy (LEAGUE_AVG z.shot_zone_basic) <;>
      simp [zoneTableDiff, hp, ha]
  · intro h1 h2
    simp [zoneTableDiff, h1, h2]
  · intro h
    simp [getDiff, h]

/-- C3 amended witness: a 0-attempt Restricted Area zone gets a null table
diff, and a 12-for-20 (60%) Restricted Area zone gets table diff
60 − 64.5 = −4.5. -/
theorem zone_diff_null_policy_witness :
    zoneTableDiff ⟨"Restricted Area", none, 0, 0⟩ = none ∧
    zoneTableDiff ⟨"Restricted Area", some 60, 20, 12⟩ = some (-4.5) := by
  constructor
  · exact (zone_diff_null_policy ⟨"Restricted Area", none, 0, 0⟩).1.mpr
      (by simp [truthy])
  · have h := (zone_diff_null_policy ⟨"Restricted Area", some 60, 20, 12⟩).2.1
      (by simp [truthy]) (by simp [truthy, LEAGUE_AVG]; norm_num)
    rw [h]
    norm_num [LEAGUE_AVG]

/-- A Restricted Area zone hit 12-for-20: pct 60, 20 attempts. -/
def zoneRA60 : ZoneStat := ⟨"Restricted Area", some 60, 20, 12⟩

/-- A Mid-Range zone hit 6-for-20: pct 30, 20 attempts. -/
def zoneMid30 : ZoneStat := ⟨"Mid-Range", some 30, 20, 6⟩

/-- A Restricted Area zone hit 0-for-20: pct 0, 20 attempts. -/
def zoneRA0big : ZoneStat := ⟨"Restricted Area", some 0, 20, 0⟩

/-- A Restricted Area zone hit 0-for-5: pct 0, 5 attempts. -/
def zoneRA0small : ZoneStat := ⟨"Restricted Area", some 0, 5, 0⟩

/-- C4 counterexample: the 0-for-20 Restricted Area zone has more than 10
attempts and the lowest diff (0 − 64.5 = −64.5, below Mid-Range's
30 − 42.1 = −12.1), so the claim picks it as the weakest zone — but the
code's selection skips it (its pct 0 is falsy) and returns the Mid-Range
zone instead. -/
theorem weakest_zone_min_diff_cex :
    selectWorst [zoneRA0big, zoneMid30] = some zoneMid30 ∧
    10 < zoneRA0big.attempts ∧
    specZoneDiff zoneRA0big = some (-64.5) ∧
    specZoneDiff zoneMid30 = some (-12.1) ∧
    (-64.5 : ℚ) < -12.1 := by
  refine ⟨?_, by norm_num [zoneRA0big], ?_, ?_, by norm_num⟩
  · simp [selectWorst, sortByKey, insertByKey, truthy, zoneRA0big, zoneMid30]
  · norm_num [specZoneDiff, zoneRA0big, LEAGUE_AVG]
  · norm_num [specZoneDiff, zoneMid30, LEAGUE_AVG]

/-- C4 amended: the weakest zone is a zone of minimum `getDiff` among the
zones with a truthy (non-null, nonzero) pct and attempts strictly greater
than 10; every zone with attempts ≤ 10 — or with a null or 0 pct — is
excluded, and some such zone is selected as soon as one qualifies. -/
theorem weakest_zone_selection (zones : List ZoneStat) :
    (∀ w, selectWorst zones = some w →
      w ∈ zones ∧ truthy w.pct = true ∧ 10 < w.attempts ∧
      ∀ z ∈ zones, truthy z.pct = true → 10 < z.attempts → diffKey w ≤ diffKey z) ∧
    (∀ z ∈ zones, truthy z.pct = true → 10 < z.attempts →
      (selectWorst zones).isSome = true) := by
  constructor
  · intro w hw
    unfold selectWorst at hw
    obtain ⟨hwf, hmin⟩ := head_sortByKey_min hw
    rw [List.mem_filter, Bool.and_eq_true, decide_eq_true_iff] at hwf
    refine ⟨hwf.1, hwf.2.1, hwf.2.2, ?_⟩
    intro z hz h1 h2
    exact hmin z (List.mem_filter.mpr
      ⟨hz, by rw [Bool.and_eq_true, decide_eq_true_iff]; exact ⟨h1, h2⟩⟩)
  · intro z hz h1 h2
    unfold selectWorst
    exact head_sortByKey_isSome (List.mem_filter.mpr
      ⟨hz, by rw [Bool.and_eq_true, decide_eq_true_iff]; exact ⟨h1, h2⟩⟩)

/-- C4 amended witness: with a 60% Restricted Area zone (diff −4.5) and a
30% Mid-Range zone (diff −12.1), both over 10 attempts, the Mid-Range zone
is selected as weakest and realises the minimum diff among qualifying
zones. -/
theorem weakest_zone_selection_witness :
    selectWorst [zoneRA60, zoneMid30] = some zoneMid30 ∧
    (zoneMid30 ∈ [zoneRA60, zoneMid30] ∧ truthy zoneMid30.pct = true ∧
      10 < zoneMid30.attempts ∧
      ∀ z ∈ [zoneRA60, zoneMid30],
        truthy z.pct = true → 10 < z.attempts → diffKey zoneMid30 ≤ diffKey z) := by
  have h1 : selectWorst [zoneRA60, zoneMid30] = some zoneMid30 := by
    simp only [selectWorst, sortByKey, insertByKey, List.filter, List.foldr]
    norm_num [truthy, diffKey, getDiff, LEAGUE_AVG, zoneRA60, zoneMid30]
  exact ⟨h1, (weakest_zone_selection [zoneRA60, zoneMid30]).1 zoneMid30 h1⟩

/-- C5 counterexample: a zone set consisting of one 0-for-5 Restricted Area
zone has a zone with attempts > 0, so the claim requires it to be the
strongest zone — but the code's selection filters on pct truthiness and
returns nothing. -/
theorem strongest_zone_attempts_cex :
    selectBest [zoneRA0small] = none ∧ 0 < zoneRA0small.attempts := by
  constructor
  · simp [selectBest, sortByKey, truthy, zoneRA0small]
  · norm_num [zoneRA0small]

/-- C5 amended: the strongest zone is a zone of maximum `getDiff` among the
zones with a truthy (non-null, nonzero) pct — not among all zones with
attempts > 0: a 0-for-N zone is excluded — and some such zone is selected
as soon as one zone has a truthy pct. -/
theorem strongest_zone_selection (zones : List ZoneStat) :
    (∀ b, selectBest zones = some b →
      b ∈ zones ∧ truthy b.pct = true ∧
      ∀ z ∈ zones, truthy z.pct = true → diffKey z ≤ diffKey b) ∧
    (∀ z ∈ zones, truthy z.pct = true → (selectBest zones).isSome = true) := by
  constructor
  · intro b hb
    unfold selectBest at hb
    obtain ⟨hbf, hmin⟩ := head_sortByKey_min hb
    rw [List.mem_filter] at hbf
    refine ⟨hbf.1, hbf.2, ?_⟩
    intro z hz h1
    have := hmin z (List.mem_filter.mpr ⟨hz, h1⟩)
    exact le_of_neg_le_neg this
  · intro z hz h1
    unfold selectBest
    exact head_sortByKey_isSome (List.mem_filter.mpr ⟨hz, h1⟩)

/-- C5 amended witness: with the 60% Restricted Area zone (diff −4.5) and
the 30% Mid-Range zone (diff −12.1) the Restricted Area zone is selected as
strongest and realises the maximum diff among truthy-pct zones. -/
theorem strongest_zone_selection_witness :
    selectBest [zoneRA60, zoneMid30] = some zoneRA60 ∧
    (zoneRA60 ∈ [zoneRA60, zoneMid30] ∧ truthy zoneRA60.pct = true ∧
      ∀ z ∈ [zoneRA60, zoneMid30], truthy z.pct = true → diffKey z ≤ diffKey zoneRA60) := by
  have h1 : selectBest [zoneRA60, zoneMid30] = some zoneRA60 := by
    simp only [selectBest, sortByKey, insertByKey, List.filter, List.foldr]
    norm_num [truthy, diffKey, getDiff, LEAGUE_AVG, zoneRA60, zoneMid30]
  exact ⟨h1, (strongest_zone_selection [zoneRA60, zoneMid30]).1 zoneRA60 h1⟩

/-- A game log row with every stat field missing. -/
def glAllNone : GameLog := ⟨none, none, none, none, none, none, none, none⟩

/-- A game log row with 20 points and every other field missing. -/
def glPts20 : GameLog := ⟨some 20, none, none, none, none, none, none, none⟩

/-- C6 counterexample: over one all-missing game and one 20-point game every
frontend averaging site (App seasonAvg, the Overview season block, Compare
loadStats) averages points to 10 — the missing game is coerced to 0 and
counted in the denominator — where the claim's skip-missing mean is 20; and
a list of one all-missing game averages to 0 at all three sites, not null. -/
theorem missing_treated_as_zero_cex :
    seasonAvgApp [glAllNone, glPts20] = some ⟨10, 0, 0, 0⟩ ∧
    (overviewStats [glAllNone, glPts20]).map OverviewStats.ppg = some 10 ∧
    (loadStatsCompare [glAllNone, glPts20]).map CompareStats.ppg = some 10 ∧
    specMean ([glAllNone, glPts20].map GameLog.pts) = some 20 ∧
    ((10 : ℚ) ≠ 20) ∧
    seasonAvgApp [glAllNone] = some ⟨0, 0, 0, 0⟩ ∧
    (overviewStats [glAllNone]).map OverviewStats.ppg = some 0 ∧
    (loadStatsCompare [glAllNone]).map CompareStats.ppg = some 0 ∧
    specMean ([glAllNone].map GameLog.pts) = none := by
  refine ⟨?_, ?_, ?_, ?_, by norm_num, ?_, ?_, ?_, ?_⟩
  · norm_num [seasonAvgApp, sumOrZero, round1, glAllNone, glPts20]
  · norm_num [overviewStats, sumOrZero, atrOf, glAllNone, glPts20]
  · norm_num [loadStatsCompare, sumOrZero, round1, glAllNone, glPts20]
  · simp only [List.map_cons, List.map_nil, glAllNone, glPts20, specMean,
      List.reduceOption, List.filterMap_cons, List.filterMap_nil, id]
    norm_num
  · norm_num [seasonAvgApp, sumOrZero, round1, glAllNone]
  · norm_num [overviewStats, sumOrZero, atrOf, glAllNone]
  · norm_num [loadStatsCompare, sumOrZero, round1, glAllNone]
  · simp only [List.map_cons, List.map_nil, glAllNone, specMean,
      List.reduceOption, List.filterMap_cons, List.filterMap_nil, id]
    simp

/-- Summing with null-as-zero over a list whose selected field is missing
in every game gives 0. -/
theorem sumOrZero_all_none (f : GameLog → Option ℚ) (logs : List GameLog)
    (h : ∀ g ∈ logs, f g = none) : sumOrZero f logs = 0 := by
  unfold sumOrZero
  apply List.sum_eq_zero
  intro x hx
  rw [List.mem_map] at hx
  obtain ⟨g, hg, rfl⟩ := hx
  rw [h g hg]
  rfl

/-- C6 amended: the spec-modelled engine mean does skip a missing value
(excluding it from numerator and denominator), but every frontend averaging
site — the App's seasonAvg, the Overview season block and Compare's
loadStats — coerces a missing field to 0 and keeps the game in the
denominator: each field equals the sum-with-null-as-zero divided by the
total game count, and over a nonempty list of games whose field is
all-missing that field averages to 0 rather than null. -/
theorem missing_vs_zero_in_averages (logs : List GameLog) (h : logs ≠ []) :
    (∀ vals : List (Option ℚ), specMean (none :: vals) = specMean vals) ∧
    (∃ s, seasonAvgApp logs = some s ∧
      s.pts = round1 (sumOrZero GameLog.pts logs / logs.length) ∧
      s.reb = round1 (sumOrZero GameLog.reb logs / logs.length) ∧
      s.ast = round1 (sumOrZero GameLog.ast logs / logs.length) ∧
      s.pm = round1 (sumOrZero GameLog.plus_minus logs / logs.length) ∧
      ((∀ g ∈ logs, g.pts = none) → s.pts = 0) ∧
      ((∀ g ∈ logs, g.reb = none) → s.reb = 0) ∧
      ((∀ g ∈ logs, g.ast = none) → s.ast = 0) ∧
      ((∀ g ∈ logs, g.plus_minus = none) → s.pm = 0)) ∧
    (∃ s, overviewStats logs = some s ∧
      s.ppg = sumOrZero GameLog.pts logs / logs.length ∧
      s.rpg = sumOrZero GameLog.reb logs / logs.length ∧
      s.apg = sumOrZero GameLog.ast logs / logs.length ∧
      s.topg = sumOrZero GameLog.tov logs / logs.length ∧
      s.fgp = sumOrZero GameLog.fg_pct logs / logs.length ∧
      s.fg3p = sumOrZero GameLog.fg3_pct logs / logs.length ∧
      s.ftp = sumOrZero GameLog.ft_pct logs / logs.length ∧
      s.pm = sumOrZero GameLog.plus_minus logs / logs.length ∧
      ((∀ g ∈ logs, g.pts = none) → s.ppg = 0) ∧
      ((∀ g ∈ logs, g.reb = none) → s.rpg = 0) ∧
      ((∀ g ∈ logs, g.ast = none) → s.apg = 0) ∧
      ((∀ g ∈ logs, g.tov = none) → s.topg = 0) ∧
      ((∀ g ∈ logs, g.fg_pct = none) → s.fgp = 0) ∧
      ((∀ g ∈ logs, g.fg3_pct = none) → s.fg3p = 0) ∧
      ((∀ g ∈ logs, g.ft_pct = none) → s.ftp = 0) ∧
      ((∀ g ∈ logs, g.plus_minus = none) → s.pm = 0)) ∧
    (∃ s, loadStatsCompare logs = some s ∧
      s.ppg = round1 (sumOrZero GameLog.pts logs / logs.length) ∧
      s.rpg = round1 (sumOrZero GameLog.reb logs / logs.length) ∧
      s.apg = round1 (sumOrZero GameLog.ast logs / logs.length) ∧
      s.topg = round1 (sumOrZero GameLog.tov logs / logs.length) ∧
      s.fg = round1 (sumOrZero GameLog.fg_pct logs / logs.length * 100) ∧
      s.fg3 = round1 (sumOrZero GameLog.fg3_pct logs / logs.length * 100) ∧
      s.ft = round1 (sumOrZero GameLog.ft_pct logs / logs.length * 100) ∧
      s.pm = round1 (sumOrZero GameLog.plus_minus logs / logs.length) ∧
      ((∀ g ∈ logs, g.pts = none) → s.ppg = 0) ∧
      ((∀ g ∈ logs, g.reb = none) → s.rpg = 0) ∧
      ((∀ g ∈ logs, g.ast = none) → s.apg = 0) ∧
      ((∀ g ∈ logs, g.tov = none) → s.topg = 0) ∧
      ((∀ g ∈ logs, g.fg_pct = none) → s.fg = 0) ∧
      ((∀ g ∈ logs, g.fg3_pct = none) → s.fg3 = 0) ∧
      ((∀ g ∈ logs, g.ft_pct = none) → s.ft = 0) ∧
      ((∀ g ∈ logs, g.plus_minus = none) → s.pm = 0)) := by
  have hne : logs.isEmpty = false := by
    cases logs with
    | nil => exact absurd rfl h
    | cons a l => rfl
  refine ⟨fun vals => by simp [specMean], ?_, ?_, ?_⟩
  · have hs : seasonAvgApp logs = some
        { pts := round1 (sumOrZero GameLog.pts logs / logs.length)
          reb := round1 (sumOrZero GameLog.reb logs / logs.length)
          ast := round1 (sumOrZero GameLog.ast logs / logs.length)
          pm := round1 (sumOrZero GameLog.plus_minus logs / logs.length) } := by
      simp [seasonAvgApp, hne]
    refine ⟨_, hs, rfl, rfl, rfl, rfl, ?_, ?_, ?_, ?_⟩ <;>
      (intro hall; rw [sumOrZero_all_none _ _ hall]; norm_num [round1])
  · have hs : overviewStats logs = some
        { ppg := sumOrZero GameLog.pts logs / logs.length
          rpg := sumOrZero GameLog.reb logs / logs.length
          apg := sumOrZero GameLog.ast logs / logs.length
          topg := sumOrZero GameLog.tov logs / logs.length
          fgp := sumOrZero GameLog.fg_pct logs / logs.length
          fg3p := sumOrZero GameLog.fg3_pct logs / logs.length
          ftp := sumOrZero GameLog.ft_pct logs / logs.length
          pm := sumOrZero GameLog.plus_minus logs / logs.length
          atr := atrOf (sumOrZero GameLog.ast logs / logs.length)
            (sumOrZero GameLog.tov logs / logs.length) } := by
      simp [overviewStats, hne]
    refine ⟨_, hs, rfl, rfl, rfl, rfl, rfl, rfl, rfl, rfl,
        ?_, ?_, ?_, ?_, ?_, ?_, ?_, ?_⟩ <;>
      (intro hall; rw [sumOrZero_all_none _ _ hall]; norm_num [round1])
  · have hs : loadStatsCompare logs = some
        { ppg := round1 (sumOrZero GameLog.pts logs / logs.length)
          rpg := round1 (sumOrZero GameLog.reb logs / logs.length)
          apg := round1 (sumOrZero GameLog.ast logs / logs.length)
          topg := round1 (sumOrZero GameLog.tov logs / logs.length)
          fg := round1 (sumOrZero GameLog.fg_pct logs / logs.length * 100)
          fg3 := round1 (sumOrZero GameLog.fg3_pct logs / logs.length * 100)
          ft := round1 (sumOrZero GameLog.ft_pct logs / logs.length * 100)
          pm := round1 (sumOrZero GameLog.plus_minus logs / logs.length)
          gp := logs.length } := by
      simp [loadStatsCompare, hne]
    refine ⟨_, hs, rfl, rfl, rfl, rfl, rfl, rfl, rfl, rfl,
        ?_, ?_, ?_, ?_, ?_, ?_, ?_, ?_⟩ <;>
      (intro hall; rw [sumOrZero_all_none _ _ hall]; norm_num [round1])

/-- C6 amended witness: the engine mean of (missing, 20) equals the mean of
(20) alone, and the one-game all-missing list yields, at all three frontend
sites, an average object whose fields are the null-as-zero means — all 0,
not null. -/
theorem missing_vs_zero_in_averages_witness :
    specMean (none :: [some (20 : ℚ)]) = specMean [some (20 : ℚ)] ∧
    (∃ s, seasonAvgApp [glAllNone] = some s ∧
      s.pts = round1 (sumOrZero GameLog.pts [glAllNone] / ([glAllNone] : List GameLog).length) ∧
      s.reb = round1 (sumOrZero GameLog.reb [glAllNone] / ([glAllNone] : List GameLog).length) ∧
      s.ast = round1 (sumOrZero GameLog.ast [glAllNone] / ([glAllNone] : List GameLog).length) ∧
      s.pm = round1 (sumOrZero GameLog.plus_minus [glAllNone] / ([glAllNone] : List GameLog).length) ∧
      ((∀ g ∈ [glAllNone], g.pts = none) → s.pts = 0) ∧
      ((∀ g ∈ [glAllNone], g.reb = none) → s.reb = 0) ∧
      ((∀ g ∈ [glAllNone], g.ast = none) → s.ast = 0) ∧
      ((∀ g ∈ [glAllNone], g.plus_minus = none) → s.pm = 0)) ∧
    (∃ s, overviewStats [glAllNone] = some s ∧
      s.ppg = sumOrZero GameLog.pts [glAllNone] / ([glAllNone] : List GameLog).length ∧
      s.rpg = sumOrZero GameLog.reb [glAllNone] / ([glAllNone] : List GameLog).length ∧
      s.apg = sumOrZero GameLog.ast [glAllNone] / ([glAllNone] : List GameLog).length ∧
      s.topg = sumOrZero GameLog.tov [glAllNone] / ([glAllNone] : List GameLog).length ∧
      s.fgp = sumOrZero GameLog.fg_pct [glAllNone] / ([glAllNone] : List GameLog).length ∧
      s.fg3p = sumOrZero GameLog.fg3_pct [glAllNone] / ([glAllNone] : List GameLog).length ∧
      s.ftp = sumOrZero GameLog.ft_pct [glAllNone] / ([glAllNone] : List GameLog).length ∧
      s.pm = sumOrZero GameLog.plus_minus [glAllNone] / ([glAllNone] : List GameLog).length ∧
      ((∀ g ∈ [glAllNone], g.pts = none) → s.ppg = 0) ∧
      ((∀ g ∈ [glAllNone], g.reb = none) → s.rpg = 0) ∧
      ((∀ g ∈ [glAllNone], g.ast = none) → s.apg = 0) ∧
      ((∀ g ∈ [glAllNone], g.tov = none) → s.topg = 0) ∧
      ((∀ g ∈ [glAllNone], g.fg_pct = none) → s.fgp = 0) ∧
      ((∀ g ∈ [glAllNone], g.fg3_pct = none) → s.fg3p = 0) ∧
      ((∀ g ∈ [glAllNone], g.ft_pct = none) → s.ftp = 0) ∧
      ((∀ g ∈ [glAllNone], g.plus_minus = none) → s.pm = 0)) ∧
    (∃ s, loadStatsCompare [glAllNone] = some s ∧
      s.ppg = round1 (sumOrZero GameLog.pts [glAllNone] / ([glAllNone] : List GameLog).length) ∧
      s.rpg = round1 (sumOrZero GameLog.reb [glAllNone] / ([glAllNone] : List GameLog).length) ∧
      s.apg = round1 (sumOrZero GameLog.ast [glAllNone] / ([glAllNone] : List GameLog).length) ∧
      s.topg = round1 (sumOrZero GameLog.tov [glAllNone] / ([glAllNone] : List GameLog).length) ∧
      s.fg = round1 (sumOrZero GameLog.fg_pct [glAllNone] / ([glAllNone] : List GameLog).length * 100) ∧
      s.fg3 = round1 (sumOrZero GameLog.fg3_pct [glAllNone] / ([glAllNone] : List GameLog).length * 100) ∧
      s.ft = round1 (sumOrZero GameLog.ft_pct [glAllNone] / ([glAllNone] : List GameLog).length * 100) ∧
      s.pm = round1 (sumOrZero GameLog.plus_minus [glAllNone] / ([glAllNone] : List GameLog).length) ∧
      ((∀ g ∈ [glAllNone], g.pts = none) → s.ppg = 0) ∧
      ((∀ g ∈ [glAllNone], g.reb = none) → s.rpg = 0) ∧
      ((∀ g ∈ [glAllNone], g.ast = none) → s.apg = 0) ∧
      ((∀ g ∈ [glAllNone], g.tov = none) → s.topg = 0) ∧
      ((∀ g ∈ [glAllNone], g.fg_pct = none) → s.fg = 0) ∧
      ((∀ g ∈ [glAllNone], g.fg3_pct = none) → s.fg3 = 0) ∧
      ((∀ g ∈ [glAllNone], g.ft_pct = none) → s.ft = 0) ∧
      ((∀ g ∈ [glAllNone], g.plus_minus = none) → s.pm = 0)) ∧
    seasonAvgApp [glAllNone] = some ⟨0, 0, 0, 0⟩ := by
  have h := missing_vs_zero_in_averages [glAllNone] (by simp)
  exact ⟨h.1 [some 20], h.2.1, h.2.2.1, h.2.2.2,
    by norm_num [seasonAvgApp, sumOrZero, round1, glAllNone]⟩

/-- C7: every division site is guarded — the three per-game averaging sites
(App seasonAvg, Overview stats, Compare loadStats) divide only after their
empty-log guard and return the null placeholder exactly on an empty log
list, and the assist-to-turnover ratio divides only when turnovers per game
are strictly positive, returning the em-dash placeholder otherwise. -/
theorem division_guards :
    (∀ logs : List GameLog, (seasonAvgApp logs = none ↔ logs = [])) ∧
    (∀ logs : List GameLog, (overviewStats logs = none ↔ logs = [])) ∧
    (∀ logs : List GameLog, (loadStatsCompare logs = none ↔ logs = [])) ∧
    (∀ apg topg : ℚ, topg ≤ 0 → atrOf apg topg = none) ∧
    (∀ apg topg : ℚ, 0 < topg → atrOf apg topg = some (round1 (apg / topg))) := by
  refine ⟨?_, ?_, ?_, ?_, ?_⟩
  · intro logs; cases logs <;> simp [seasonAvgApp]
  · intro logs; cases logs <;> simp [overviewStats]
  · intro logs; cases logs <;> simp [loadStatsCompare]
  · intro apg topg h; simp [atrOf, not_lt.mpr h]
  · intro apg topg h; simp [atrOf, h]

/-- C7 witness: zero turnovers per game give the em-dash instead of a
division, and the empty log list gives null season averages and null
comparison stats. -/
theorem division_guards_witness :
    atrOf 7 0 = none ∧ seasonAvgApp [] = none ∧ loadStatsCompare [] = none :=
  ⟨division_guards.2.2.2.1 7 0 le_rfl, (division_guards.1 []).mpr rfl,
   (division_guards.2.2.1 []).mpr rfl⟩

/-- C8: both delta renderers (TrendBadge and StatCard) mark a delta as
favourable (up, positive colouring) exactly when the delta is strictly
positive, and render nothing for a null delta. -/
theorem delta_sign_convention :
    (∀ d : ℚ, trendBadgeUp (some d) = some true ↔ 0 < d) ∧
    (∀ d : ℚ, statCardArrowUp (some d) = some true ↔ 0 < d) ∧
    trendBadgeUp none = none ∧ statCardArrowUp none = none := by
  refine ⟨?_, ?_, rfl, rfl⟩ <;> intro d <;> simp [trendBadgeUp, statCardArrowUp]

/-- C8 witness: a +3 delta is rendered as favourable by both renderers. -/
theorem delta_sign_convention_witness :
    trendBadgeUp (some 3) = some true ∧ statCardArrowUp (some 3) = some true :=
  ⟨(delta_sign_convention.1 3).mpr (by norm_num),
   (delta_sign_convention.2.1 3).mpr (by norm_num)⟩

/-- C10: a shooting percentage of exactly 0 is treated identically to a
null percentage — by the diff helper, by both zone colourings, by the
percentage display (which shows the em-dash), by the ZoneTable diff, and by
the strongest/weakest-zone selections, which skip a 0-pct zone entirely. -/
theorem zero_pct_is_no_data (zone : String) (z : ZoneStat) (zs : List ZoneStat)
    (hz : z.pct = some 0) :
    getDiff (some 0) zone = getDiff none zone ∧
    getColor (some 0) zone = getColor none zone ∧
    getColor (some 0) zone = ⟨"#1e2433", "#2a3347", "#6b7280"⟩ ∧
    zonePctShown (some 0) = zonePctShown none ∧
    overviewZoneColor (some 0) = overviewZoneColor none ∧
    zoneTableDiff z = none ∧
    selectBest (z :: zs) = selectBest zs ∧
    selectWorst (z :: zs) = selectWorst zs := by
  have ht : truthy (some (0 : ℚ)) = false := by simp [truthy]
  have htz : truthy z.pct = false := by rw [hz]; exact ht
  refine ⟨?_, ?_, ?_, ?_, ?_, ?_, ?_, ?_⟩
  · simp [getDiff, truthy]
  · simp [getColor, truthy]
  · simp [getColor, truthy]
  · simp [zonePctShown, truthy]
  · simp [overviewZoneColor, truthy]
  · simp [zoneTableDiff, htz]
  · simp [selectBest, List.filter_cons, htz]
  · simp [selectWorst, List.filter_cons, htz]

/-- C10 witness: the 0-for-5 Restricted Area zone is rendered as no-data
and its presence changes neither selection. -/
theorem zero_pct_is_no_data_witness :
    getDiff (some 0) "Restricted Area" = getDiff none "Restricted Area" ∧
    getColor (some 0) "Restricted Area" = getColor none "Restricted Area" ∧
    getColor (some 0) "Restricted Area" = ⟨"#1e2433", "#2a3347", "#6b7280"⟩ ∧
    zonePctShown (some 0) = zonePctShown none ∧
    overviewZoneColor (some 0) = overviewZoneColor none ∧
    zoneTableDiff zoneRA0small = none ∧
    selectBest (zoneRA0small :: [zoneRA60]) = selectBest [zoneRA60] ∧
    selectWorst (zoneRA0small :: [zoneRA60]) = selectWorst [zoneRA60] :=
  zero_pct_is_no_data "Restricted Area" zoneRA0small [zoneRA60] rfl
